import Mathlib

/-!
Verification development for the ACCESS-CI MCP protocol/transport layer
(`base_server.py`): a shallow embedding of the JSON-RPC dispatcher
(`_handle_jsonrpc_message`), the `/messages` endpoint handler
(`messages_handler`) and the direct REST tool-execution endpoint
(`execute_tool`), with proofs of the protocol properties stated in the
specification.
-/

namespace AccessMCP

/-- JSON values as produced by Python's `json` module: `null`/`None`,
booleans, (integer) numbers, strings, arrays/lists and objects/dicts.
Objects are ordered association lists, matching Python dict insertion
order. Numbers are modelled as integers; no claim depends on float
payloads. -/
inductive Json where
  | null : Json
  | bool : Bool → Json
  | num : Int → Json
  | str : String → Json
  | arr : List Json → Json
  | obj : List (String × Json) → Json
deriving Repr

mutual

/-- Python `==` on JSON-compatible values: equal only within the same
type (a string never equals a number, `None` equals only `None`). -/
def Json.beq : Json → Json → Bool
  | .null, .null => true
  | .bool a, .bool b => a == b
  | .num a, .num b => a == b
  | .str a, .str b => a == b
  | .arr a, .arr b => Json.beqList a b
  | .obj a, .obj b => Json.beqFields a b
  | _, _ => false

/-- Elementwise Python `==` on lists. -/
def Json.beqList : List Json → List Json → Bool
  | [], [] => true
  | x :: xs, y :: ys => Json.beq x y && Json.beqList xs ys
  | _, _ => false

/-- Pairwise Python `==` on ordered dict entries. -/
def Json.beqFields : List (String × Json) → List (String × Json) → Bool
  | [], [] => true
  | (k, v) :: xs, (l, w) :: ys => k == l && Json.beq v w && Json.beqFields xs ys
  | _, _ => false

end

/-- The Python type name of a value, as it appears in Python error
messages such as `AttributeError`. -/
def Json.pyTypeName : Json → String
  | .null => "NoneType"
  | .bool _ => "bool"
  | .num _ => "int"
  | .str _ => "str"
  | .arr _ => "list"
  | .obj _ => "dict"

mutual

/-- Python `repr` of a JSON-compatible value (`None`/`True`/`False`,
quoted strings, bracketed containers). String quoting is modelled
without escaping, which is faithful for the quote-free strings the
claims exercise. -/
def Json.pyRepr : Json → String
  | .null => "None"
  | .bool true => "True"
  | .bool false => "False"
  | .num n => toString n
  | .str s => "\x27" ++ s ++ "\x27"
  | .arr xs => "[" ++ Json.pyReprList xs ++ "]"
  | .obj fs => "\x7b" ++ Json.pyReprFields fs ++ "\x7d"

/-- Comma-separated `repr`s of list elements. -/
def Json.pyReprList : List Json → String
  | [] => ""
  | [x] => Json.pyRepr x
  | x :: xs => Json.pyRepr x ++ ", " ++ Json.pyReprList xs

/-- Comma-separated `repr`s of dict entries. -/
def Json.pyReprFields : List (String × Json) → String
  | [] => ""
  | [(k, v)] => "\x27" ++ k ++ "\x27: " ++ Json.pyRepr v
  | (k, v) :: fs => "\x27" ++ k ++ "\x27: " ++ Json.pyRepr v ++ ", " ++ Json.pyReprFields fs

end

/-- Python `str()` as used by f-string interpolation: a string embeds
as itself, anything else renders via `repr`. -/
def Json.pyStr : Json → String
  | .str s => s
  | j => Json.pyRepr j

/-- Python `dict.get(key, default)` on a parsed-JSON dict: the stored value if
the key is present (even when that value is `null`), else the default. -/
def dictGet (fs : List (String × Json)) (k : String) (d : Json) : Json :=
  match fs.lookup k with
  | some v => v
  | none => d

/-- The message of the `AttributeError` Python raises for `x.get(...)`
when `x` is not a dict. -/
def Json.pyGetAttrErr (j : Json) : String :=
  "\x27" ++ j.pyTypeName ++ "\x27 object has no attribute \x27get\x27"

/-- Python `value.get(key, default)` on an arbitrary parsed-JSON value:
succeeds with dict lookup semantics on a dict, raises `AttributeError`
(modelled as `Except.error` carrying the exception's description)
otherwise. -/
def Json.pyGet (j : Json) (k : String) (d : Json) : Except String Json :=
  match j with
  | .obj fs => .ok (dictGet fs k d)
  | _ => .error j.pyGetAttrErr

/-- Python truthiness of a JSON-compatible value (`if response:`). -/
def Json.pyTruthy : Json → Bool
  | .null => false
  | .bool b => b
  | .num n => n != 0
  | .str s => !(s == "")
  | .arr xs => !xs.isEmpty
  | .obj fs => !fs.isEmpty

/-- JSON string escaping as `json.dumps` performs it, for the escapes
exercised here: backslash, double quote, newline, carriage return and
tab. Other characters pass through unchanged. -/
def jsonEscapeChar (c : Char) : String :=
  if c = '\\' then "\\\\"
  else if c = '"' then "\\\""
  else if c = '\n' then "\\n"
  else if c = '\r' then "\\r"
  else if c = '\t' then "\\t"
  else String.singleton c

/-- Escape a whole string for JSON output. -/
def jsonEscape (s : String) : String :=
  String.join (s.toList.map jsonEscapeChar)

/-- A run of `n` spaces. -/
def indentStr (n : Nat) : String :=
  String.mk (List.replicate n ' ')

mutual

/-- Model of `json.dumps(value, indent=2)`: the serialization used by the
dispatcher's `tools/call` branch and by `execute_tool` for non-string
results. `level` is the current nesting depth. -/
def Json.dumps : Json → Nat → String
  | .null, _ => "null"
  | .bool true, _ => "true"
  | .bool false, _ => "false"
  | .num n, _ => toString n
  | .str s, _ => "\"" ++ jsonEscape s ++ "\""
  | .arr [], _ => "[]"
  | .arr (x :: xs), level =>
      "[\n" ++ Json.dumpsItems (x :: xs) (level + 1) ++ "\n" ++ indentStr (2 * level) ++ "]"
  | .obj [], _ => "\x7b\x7d"
  | .obj (f :: fs), level =>
      "\x7b\n" ++ Json.dumpsFields (f :: fs) (level + 1) ++ "\n" ++ indentStr (2 * level) ++ "\x7d"

/-- Indented, comma-and-newline-separated array items. -/
def Json.dumpsItems : List Json → Nat → String
  | [], _ => ""
  | [x], level => indentStr (2 * level) ++ Json.dumps x level
  | x :: y :: xs, level =>
      indentStr (2 * level) ++ Json.dumps x level ++ ",\n" ++ Json.dumpsItems (y :: xs) level

/-- Indented, comma-and-newline-separated object entries. -/
def Json.dumpsFields : List (String × Json) → Nat → String
  | [], _ => ""
  | [(k, v)], level => indentStr (2 * level) ++ "\"" ++ jsonEscape k ++ "\": " ++ Json.dumps v level
  | (k, v) :: f :: fs, level =>
      indentStr (2 * level) ++ "\"" ++ jsonEscape k ++ "\": " ++ Json.dumps v level
        ++ ",\n" ++ Json.dumpsFields (f :: fs) level

end

/-- An `mcp.types.TextContent` object as returned by tool
implementations: a `type` tag and a `text` payload. -/
structure TextContent where
  type : String
  text : String
deriving DecidableEq, Repr

/-- A Python value a tool invocation can return: either a
JSON-serializable value or a list of `TextContent` objects (the shape
`handle_tool_call` returns for MCP, per the comment in
`execute_tool`). -/
inductive PyVal where
  | json : Json → PyVal
  | contents : List TextContent → PyVal
deriving Repr

/-- Model of `json.dumps(result, indent=2)` on a tool result: total on
JSON-serializable values; a non-empty list of `TextContent` objects is
not JSON serializable and raises `TypeError` (the empty list is just
the empty Python list and serializes to `[]`). -/
def PyVal.pyDumps : PyVal → Except String String
  | .json j => .ok (j.dumps 0)
  | .contents [] => .ok "[]"
  | .contents (_ :: _) => .error "Object of type TextContent is not JSON serializable"

/-- A registered tool descriptor (`mcp.types.Tool`): name, description
and input schema. -/
structure Tool where
  name : String
  description : String
  inputSchema : Json
deriving Repr

/-- The tool-registry boundary a concrete server supplies: `get_tools`
and `handle_tool_call`. A failing tool invocation is an
`Except.error` carrying the exception's description (`str(e)`). -/
structure Registry where
  tools : List Tool
  call : Json → Json → Except String PyVal

/-- An SSE session: identifier, FIFO outbound queue (list, enqueued at
the tail) and the `initialized` flag. -/
structure Session where
  sessionId : String
  queue : List Json
  initialized : Bool
deriving Repr

/-- Model of `any(t.name == tool_name for t in tools)`: the registry lookup in
the `tools/call` branch, where `tool_name` is an arbitrary parsed
value. -/
def toolFound (tools : List Tool) (name : Json) : Bool :=
  tools.any fun t => Json.beq (Json.str t.name) name

/-- The serialized tool list of `tools/list` (and of the REST `/tools`
endpoint): `name`, `description` and `inputSchema` per tool, in
registration order. -/
def toolsData (tools : List Tool) : Json :=
  Json.arr (tools.map fun t =>
    Json.obj [("name", Json.str t.name), ("description", Json.str t.description),
              ("inputSchema", t.inputSchema)])

/-- A JSON-RPC error response envelope as the dispatcher constructs it:
`jsonrpc`, the echoed `id` and an `error` object with `code` and
`message`. -/
def errorEnvelope (msgId : Json) (code : Int) (message : String) : Json :=
  Json.obj [("jsonrpc", Json.str "2.0"), ("id", msgId),
            ("error", Json.obj [("code", Json.num code), ("message", Json.str message)])]

/-- A JSON-RPC success response envelope: `jsonrpc`, the echoed `id`
and a `result` payload. -/
def resultEnvelope (msgId : Json) (result : Json) : Json :=
  Json.obj [("jsonrpc", Json.str "2.0"), ("id", msgId), ("result", result)]

/-- The result payload of the `initialize` method. -/
def initializeResult (serverName version : String) : Json :=
  Json.obj [("protocolVersion", Json.str "2024-11-05"),
            ("capabilities", Json.obj [("tools", Json.obj []), ("resources", Json.obj [])]),
            ("serverInfo", Json.obj [("name", Json.str serverName),
                                     ("version", Json.str version)])]

/-- The serialized content block of a tool result text. -/
def textBlock (text : String) : Json :=
  Json.obj [("type", Json.str "text"), ("text", Json.str text)]

/-- The `tools/call` result formatting: a string result is embedded
unmodified, anything else goes through `json.dumps(result, indent=2)`
(which raises on a non-empty `TextContent` list). -/
def normalizeJsonrpc : PyVal → Except String String
  | .json (.str s) => .ok s
  | v => v.pyDumps

/-- The outcome of one `_handle_jsonrpc_message` call: the (possibly
mutated) session, the optional response envelope, and an
instrumentation log of the `handle_tool_call` invocations made (the
code makes at most one). -/
structure DispatchOutcome where
  session : Session
  response : Option Json
  invocations : List (Json × Json)
deriving Repr

/-- Embedding of `_handle_jsonrpc_message`, the JSON-RPC dispatcher. `message` is
the parsed request dict; `dict.get` collapses an absent key and an
explicit `null` value exactly as Python does. Every exception Python
would raise inside the method's `try` block (a non-dict `params`, a
failing tool invocation, an unserializable tool result) is converted
on the spot into the `-32603` envelope the surrounding
`except Exception` clause builds. -/
def handleJsonrpcMessage (serverName version : String) (reg : Registry)
    (session : Session) (message : List (String × Json)) : DispatchOutcome :=
  let method := dictGet message "method" Json.null
  let msgId := dictGet message "id" Json.null
  let params := dictGet message "params" (Json.obj [])
  if Json.beq method (Json.str "initialize") then
    { session := { session with initialized := true },
      response := some (resultEnvelope msgId (initializeResult serverName version)),
      invocations := [] }
  else if Json.beq method (Json.str "notifications/initialized") then
    { session := session, response := none, invocations := [] }
  else if Json.beq method (Json.str "tools/list") then
    { session := session,
      response := some (resultEnvelope msgId (Json.obj [("tools", toolsData reg.tools)])),
      invocations := [] }
  else if Json.beq method (Json.str "tools/call") then
    match params.pyGet "name" Json.null with
    | .error e =>
        { session := session, response := some (errorEnvelope msgId (-32603) e),
          invocations := [] }
    | .ok toolName =>
      match params.pyGet "arguments" (Json.obj []) with
      | .error e =>
          { session := session, response := some (errorEnvelope msgId (-32603) e),
            invocations := [] }
      | .ok arguments =>
        if toolFound reg.tools toolName then
          match reg.call toolName arguments with
          | .error e =>
              { session := session, response := some (errorEnvelope msgId (-32603) e),
                invocations := [(toolName, arguments)] }
          | .ok result =>
            match normalizeJsonrpc result with
            | .error e =>
                { session := session, response := some (errorEnvelope msgId (-32603) e),
                  invocations := [(toolName, arguments)] }
            | .ok text =>
                { session := session,
                  response := some (resultEnvelope msgId
                    (Json.obj [("content", Json.arr [textBlock text])])),
                  invocations := [(toolName, arguments)] }
        else
          { session := session,
            response := some (errorEnvelope msgId (-32601)
              ("Tool \x27" ++ toolName.pyStr ++ "\x27 not found")),
            invocations := [] }
  else if Json.beq method (Json.str "resources/list") then
    { session := session,
      response := some (resultEnvelope msgId (Json.obj [("resources", Json.arr [])])),
      invocations := [] }
  else if Json.beq method (Json.str "prompts/list") then
    { session := session,
      response := some (errorEnvelope msgId (-32601) "Method not found"),
      invocations := [] }
  else
    { session := session,
      response := some (errorEnvelope msgId (-32601)
        ("Method \x27" ++ method.pyStr ++ "\x27 not found")),
      invocations := [] }

/-- An HTTP response: status code and body. `aiohttp`'s
`web.json_response` bodies are JSON values; the plain-text `202
Accepted` body is modelled as the JSON string `"Accepted"`. -/
structure HttpResponse where
  status : Nat
  body : Json
deriving Repr

/-- The `404` body of `/messages` when the session is absent. -/
def sessionNotFoundResponse : HttpResponse :=
  { status := 404, body := Json.obj [("error", Json.str "Session not found")] }

/-- Replace the session stored under `sid` (the in-place mutation of
the shared session object). -/
def replaceSession (sessions : List (String × Session)) (sid : String) (s : Session) :
    List (String × Session) :=
  sessions.map fun p => if p.1 = sid then (sid, s) else p

/-- Embedding of `messages_handler`, the POST `/messages` endpoint. `sessionId` is
the query parameter (absent query key gives `none`); `body` is the
outcome of `await request.json()` (`Except.error` is the
`json.JSONDecodeError` description). The session lookup runs before
the `try` block; inside it, a body that parses to a non-dict raises
`AttributeError` at `data.get` inside the dispatcher, caught by the
handler's `except Exception` as a `500`. -/
def messagesHandler (serverName version : String) (reg : Registry)
    (sessions : List (String × Session)) (sessionId : Option String)
    (body : Except String Json) : List (String × Session) × HttpResponse :=
  match sessionId with
  | none => (sessions, sessionNotFoundResponse)
  | some sid =>
    if sid = "" then (sessions, sessionNotFoundResponse)
    else
      match sessions.lookup sid with
      | none => (sessions, sessionNotFoundResponse)
      | some session =>
        match body with
        | .error _ =>
            (sessions, { status := 400, body := Json.obj [("error", Json.str "Invalid JSON")] })
        | .ok (Json.obj msg) =>
            let out := handleJsonrpcMessage serverName version reg session msg
            let session' :=
              match out.response with
              | some resp =>
                  if resp.pyTruthy then { out.session with queue := out.session.queue ++ [resp] }
                  else out.session
              | none => out.session
            (replaceSession sessions sid session',
             { status := 202, body := Json.str "Accepted" })
        | .ok data =>
            (sessions, { status := 500, body := Json.obj [("error", Json.str data.pyGetAttrErr)] })

/-- The argument extraction of `execute_tool`: for a JSON content type
the body is parsed (a parse failure propagates as the exception the
endpoint's `except Exception` turns into a `500`) and `arguments` is
read off the resulting dict with `data.get('arguments', {})`; any
other content type yields the empty dict without touching the body. -/
def restArguments (contentTypeIsJson : Bool) (body : Except String Json) :
    Except String Json :=
  if contentTypeIsJson then
    match body with
    | .error e => .error e
    | .ok data => data.pyGet "arguments" (Json.obj [])
  else .ok (Json.obj [])

/-- The `execute_tool` result formatting: a non-empty list of
`TextContent` objects has its `type`/`text` fields extracted; a string
becomes one text block; anything else is `json.dumps`-serialized into
one text block. -/
def normalizeRest : PyVal → Except String (List Json)
  | .contents (c :: cs) =>
      .ok ((c :: cs).map fun item =>
        Json.obj [("type", Json.str item.type), ("text", Json.str item.text)])
  | .json (.str s) => .ok [textBlock s]
  | v => (v.pyDumps).map fun t => [textBlock t]

/-- Embedding of `execute_tool`, the POST endpoint at the tools path.
`contentTypeIsJson` models `request.content_type ==
'application/json'`; `body` is the outcome of `await request.json()`.
Exceptions raised inside the endpoint's `try` (body parse failure,
`arguments` extraction from a non-dict, tool failure, unserializable
result) become `500` responses carrying the exception's
description. -/
def executeTool (reg : Registry) (toolName : String)
    (contentTypeIsJson : Bool) (body : Except String Json) : HttpResponse :=
  match restArguments contentTypeIsJson body with
  | .error e => { status := 500, body := Json.obj [("error", Json.str e)] }
  | .ok arguments =>
    if toolFound reg.tools (Json.str toolName) then
      match reg.call (Json.str toolName) arguments with
      | .error e => { status := 500, body := Json.obj [("error", Json.str e)] }
      | .ok result =>
        match normalizeRest result with
        | .error e => { status := 500, body := Json.obj [("error", Json.str e)] }
        | .ok content =>
            { status := 200, body := Json.obj [("content", Json.arr content)] }
    else
      { status := 404,
        body := Json.obj [("error", Json.str ("Tool \x27" ++ toolName ++ "\x27 not found"))] }

/-- The `id` field of a response envelope. -/
def envelopeId : Json → Option Json
  | .obj fs => fs.lookup "id"
  | _ => none

/-- The `error.code` field of a response envelope, when the envelope
carries a well-formed error object. -/
def envelopeErrorCode : Json → Option Int
  | .obj fs =>
    match fs.lookup "error" with
    | some (.obj efs) =>
      match efs.lookup "code" with
      | some (.num c) => some c
      | _ => none
    | _ => none
  | _ => none

/-- The response-envelope invariant of the specification: `jsonrpc` is
the literal `"2.0"`, exactly one of `result`/`error` is present, and
any `error` value carries an integer `code` and a string `message`. -/
def wellFormedEnvelope (j : Json) : Bool :=
  match j with
  | .obj fs =>
      (match fs.lookup "jsonrpc" with
       | some (.str s) => s == "2.0"
       | _ => false)
      && ((fs.lookup "result").isSome != (fs.lookup "error").isSome)
      && (match fs.lookup "error" with
          | none => true
          | some (.obj efs) =>
              (match efs.lookup "code" with
               | some (.num _) => true
               | _ => false)
              && (match efs.lookup "message" with
                  | some (.str _) => true
                  | _ => false)
          | some _ => false)
  | _ => false

/-- Only a string is Python-`==` to a string. -/
theorem Json.beq_str_eq : ∀ {j : Json} {s : String},
    Json.beq j (Json.str s) = true → j = Json.str s
  | .null, _, h => nomatch h
  | .bool _, _, h => nomatch h
  | .num _, _, h => nomatch h
  | .str _, _, h => congrArg Json.str (eq_of_beq h)
  | .arr _, _, h => nomatch h
  | .obj _, _, h => nomatch h

/-- Every dispatcher response is the echoed-id `result` envelope or an
echoed-id `error` envelope with code `-32601` or `-32603`; the only
input yielding no response is the `notifications/initialized`
notification. -/
theorem dispatch_response_shape (sn v : String) (reg : Registry) (s : Session)
    (msg : List (String × Json)) :
    ((handleJsonrpcMessage sn v reg s msg).response = none
       ∧ dictGet msg "method" Json.null = Json.str "notifications/initialized")
    ∨ (∃ r, (handleJsonrpcMessage sn v reg s msg).response
          = some (resultEnvelope (dictGet msg "id" Json.null) r))
    ∨ (∃ c m, (handleJsonrpcMessage sn v reg s msg).response
          = some (errorEnvelope (dictGet msg "id" Json.null) c m)
          ∧ (c = -32601 ∨ c = -32603)) := by
  simp only [handleJsonrpcMessage]
  split
  · right; left; exact ⟨_, rfl⟩
  · split
    · next h1 h2 => exact Or.inl ⟨rfl, Json.beq_str_eq h2⟩
    · split
      · right; left; exact ⟨_, rfl⟩
      · split
        · split
          · right; right; exact ⟨_, _, rfl, Or.inr rfl⟩
          · split
            · right; right; exact ⟨_, _, rfl, Or.inr rfl⟩
            · split
              · split
                · right; right; exact ⟨_, _, rfl, Or.inr rfl⟩
                · split
                  · right; right; exact ⟨_, _, rfl, Or.inr rfl⟩
                  · right; left; exact ⟨_, rfl⟩
              · right; right; exact ⟨_, _, rfl, Or.inl rfl⟩
        · split
          · right; left; exact ⟨_, rfl⟩
          · split
            · right; right; exact ⟨_, _, rfl, Or.inl rfl⟩
            · right; right; exact ⟨_, _, rfl, Or.inl rfl⟩

/-- A `resultEnvelope` satisfies the response-envelope invariant. -/
theorem wellFormedEnvelope_result (i r : Json) :
    wellFormedEnvelope (resultEnvelope i r) = true := rfl

/-- An `errorEnvelope` satisfies the response-envelope invariant. -/
theorem wellFormedEnvelope_error (i : Json) (c : Int) (m : String) :
    wellFormedEnvelope (errorEnvelope i c m) = true := rfl

/-- A `resultEnvelope` echoes the id it was built with. -/
theorem envelopeId_result (i r : Json) : envelopeId (resultEnvelope i r) = some i := rfl

/-- An `errorEnvelope` echoes the id it was built with. -/
theorem envelopeId_error (i : Json) (c : Int) (m : String) :
    envelopeId (errorEnvelope i c m) = some i := rfl

/-- A `resultEnvelope` carries no error code. -/
theorem envelopeErrorCode_result (i r : Json) :
    envelopeErrorCode (resultEnvelope i r) = none := rfl

/-- An `errorEnvelope` carries the code it was built with. -/
theorem envelopeErrorCode_error (i : Json) (c : Int) (m : String) :
    envelopeErrorCode (errorEnvelope i c m) = some c := rfl

/-- No registered tool name is Python-`==` to `None`. -/
theorem toolFound_null (tools : List Tool) : toolFound tools Json.null = false := by
  unfold toolFound
  rw [List.any_eq_false]
  intro t _
  exact Bool.false_ne_true

/-- A concrete two-tool registry for the witnesses: `echo` succeeds
with a string, `boom` raises. -/
def witnessRegistry : Registry :=
  { tools := [{ name := "echo", description := "echo tool", inputSchema := Json.obj [] },
              { name := "boom", description := "failing tool", inputSchema := Json.obj [] }],
    call := fun name _ =>
      if Json.beq name (Json.str "boom") then Except.error "boom failed"
      else Except.ok (PyVal.json (Json.str "ok")) }

/-- A concrete fresh session for the witnesses. -/
def witnessSession : Session :=
  { sessionId := "sid1", queue := [], initialized := false }

/-- C1: the dispatcher never throws — for every parsed request dict it
returns `none` exactly for the `notifications/initialized`
notification, and a tool-execution failure escaping `handle_tool_call`
during `tools/call` is converted into the `-32603` error envelope
whose message is the failure's description. -/
theorem c1_dispatcher_never_throws (sn v : String) (reg : Registry) (s : Session)
    (msg : List (String × Json)) :
    (dictGet msg "method" Json.null = Json.str "notifications/initialized" →
       (handleJsonrpcMessage sn v reg s msg).response = none)
    ∧ ((handleJsonrpcMessage sn v reg s msg).response = none →
       dictGet msg "method" Json.null = Json.str "notifications/initialized")
    ∧ (∀ toolName arguments e,
       dictGet msg "method" Json.null = Json.str "tools/call" →
       (dictGet msg "params" (Json.obj [])).pyGet "name" Json.null = Except.ok toolName →
       (dictGet msg "params" (Json.obj [])).pyGet "arguments" (Json.obj [])
         = Except.ok arguments →
       toolFound reg.tools toolName = true →
       reg.call toolName arguments = Except.error e →
       (handleJsonrpcMessage sn v reg s msg).response
         = some (errorEnvelope (dictGet msg "id" Json.null) (-32603) e)) := by
  refine ⟨fun hm => ?_, fun hn => ?_, fun toolName arguments e hm hname hargs hfound hcall => ?_⟩
  · simp only [handleJsonrpcMessage, hm]
    rfl
  · rcases dispatch_response_shape sn v reg s msg with ⟨_, h⟩ | ⟨r, hr⟩ | ⟨c, m, hr, _⟩
    · exact h
    · rw [hn] at hr; exact Option.noConfusion hr
    · rw [hn] at hr; exact Option.noConfusion hr
  · simp only [handleJsonrpcMessage, hm, hname, hargs, hfound, hcall]
    rfl

/-- C1 witness: at a `notifications/initialized` notification the
dispatcher returns `none`; at a `tools/call` of the failing tool
`boom` it returns the `-32603` envelope carrying the failure's
description. -/
theorem c1_witness :
    (handleJsonrpcMessage "srv" "1.0" witnessRegistry witnessSession
        [("method", Json.str "notifications/initialized")]).response = none
    ∧ (handleJsonrpcMessage "srv" "1.0" witnessRegistry witnessSession
        [("id", Json.num 1), ("method", Json.str "tools/call"),
         ("params", Json.obj [("name", Json.str "boom")])]).response
      = some (errorEnvelope (Json.num 1) (-32603) "boom failed") :=
  ⟨(c1_dispatcher_never_throws "srv" "1.0" witnessRegistry witnessSession
      [("method", Json.str "notifications/initialized")]).1 rfl,
   (c1_dispatcher_never_throws "srv" "1.0" witnessRegistry witnessSession
      [("id", Json.num 1), ("method", Json.str "tools/call"),
       ("params", Json.obj [("name", Json.str "boom")])]).2.2
     (Json.str "boom") (Json.obj []) "boom failed" rfl rfl rfl rfl rfl⟩

/-- C2: a `tools/call` naming no registered tool yields the `-32601`
envelope with message `Tool '<name>' not found`, and `handle_tool_call`
is never invoked. -/
theorem c2_unknown_tool_not_invoked (sn v : String) (reg : Registry) (s : Session)
    (msg : List (String × Json)) (toolName arguments : Json)
    (hm : dictGet msg "method" Json.null = Json.str "tools/call")
    (hname : (dictGet msg "params" (Json.obj [])).pyGet "name" Json.null
      = Except.ok toolName)
    (hargs : (dictGet msg "params" (Json.obj [])).pyGet "arguments" (Json.obj [])
      = Except.ok arguments)
    (hfound : toolFound reg.tools toolName = false) :
    (handleJsonrpcMessage sn v reg s msg).response
      = some (errorEnvelope (dictGet msg "id" Json.null) (-32601)
          ("Tool \x27" ++ toolName.pyStr ++ "\x27 not found"))
    ∧ (handleJsonrpcMessage sn v reg s msg).invocations = [] := by
  constructor <;> (simp only [handleJsonrpcMessage, hm, hname, hargs, hfound]; rfl)

/-- C2 witness: calling the unregistered tool `missing_tool` yields the
`-32601` envelope and an empty invocation log. -/
theorem c2_witness :
    (handleJsonrpcMessage "srv" "1.0" witnessRegistry witnessSession
        [("id", Json.num 2), ("method", Json.str "tools/call"),
         ("params", Json.obj [("name", Json.str "missing_tool"),
                              ("arguments", Json.obj [])])]).response
      = some (errorEnvelope (Json.num 2) (-32601) "Tool \x27missing_tool\x27 not found")
    ∧ (handleJsonrpcMessage "srv" "1.0" witnessRegistry witnessSession
        [("id", Json.num 2), ("method", Json.str "tools/call"),
         ("params", Json.obj [("name", Json.str "missing_tool"),
                              ("arguments", Json.obj [])])]).invocations = [] :=
  c2_unknown_tool_not_invoked "srv" "1.0" witnessRegistry witnessSession
    [("id", Json.num 2), ("method", Json.str "tools/call"),
     ("params", Json.obj [("name", Json.str "missing_tool"), ("arguments", Json.obj [])])]
    (Json.str "missing_tool") (Json.obj []) rfl rfl rfl rfl

/-- C5: every response envelope the dispatcher produces has `jsonrpc`
equal to `"2.0"`, exactly one of `result`/`error`, and any error
carries an integer code and a string message. -/
theorem c5_envelope_invariant (sn v : String) (reg : Registry) (s : Session)
    (msg : List (String × Json)) (resp : Json)
    (h : (handleJsonrpcMessage sn v reg s msg).response = some resp) :
    wellFormedEnvelope resp = true := by
  rcases dispatch_response_shape sn v reg s msg with ⟨hn, _⟩ | ⟨r, hr⟩ | ⟨c, m, hr, _⟩
  · rw [h] at hn; exact Option.noConfusion hn
  · rw [h] at hr
    injection hr with hr
    rw [hr]
    exact wellFormedEnvelope_result _ _
  · rw [h] at hr
    injection hr with hr
    rw [hr]
    exact wellFormedEnvelope_error _ _ _

/-- C5 witness: the concrete `initialize` response envelope satisfies
the invariant. -/
theorem c5_witness :
    wellFormedEnvelope (resultEnvelope (Json.num 1) (initializeResult "srv" "1.0")) = true :=
  c5_envelope_invariant "srv" "1.0" witnessRegistry witnessSession
    [("id", Json.num 1), ("method", Json.str "initialize")]
    (resultEnvelope (Json.num 1) (initializeResult "srv" "1.0")) rfl

/-- C6: for every request carrying an `id` whose method is not the
`notifications/initialized` notification, a response envelope is
produced and its `id` field is the request's `id`, verbatim. -/
theorem c6_id_roundtrip (sn v : String) (reg : Registry) (s : Session)
    (msg : List (String × Json)) (idv : Json)
    (hid : msg.lookup "id" = some idv)
    (hm : ¬ dictGet msg "method" Json.null = Json.str "notifications/initialized") :
    ∃ resp, (handleJsonrpcMessage sn v reg s msg).response = some resp
      ∧ envelopeId resp = some idv := by
  have hdg : dictGet msg "id" Json.null = idv := by unfold dictGet; rw [hid]
  rcases dispatch_response_shape sn v reg s msg with ⟨_, hn⟩ | ⟨r, hr⟩ | ⟨c, m, hr, _⟩
  · exact absurd hn hm
  · exact ⟨_, hr, by rw [envelopeId_result, hdg]⟩
  · exact ⟨_, hr, by rw [envelopeId_error, hdg]⟩

/-- C6 witness: a `tools/list` request with id `41` gets a response
whose id is `41`. -/
theorem c6_witness :
    ∃ resp, (handleJsonrpcMessage "srv" "1.0" witnessRegistry witnessSession
        [("id", Json.num 41), ("method", Json.str "tools/list")]).response = some resp
      ∧ envelopeId resp = some (Json.num 41) :=
  c6_id_roundtrip "srv" "1.0" witnessRegistry witnessSession
    [("id", Json.num 41), ("method", Json.str "tools/list")] (Json.num 41) rfl
    (fun h => absurd (Json.str.inj h) (by decide))

/-- C10: a `tools/call` whose params dict omits `name` is treated as
naming `None` and answered with `-32601` and message
`Tool 'None' not found`; and no dispatcher output ever carries error
code `-32602`. -/
theorem c10_missing_name_no_32602 (sn v : String) (reg : Registry) (s : Session)
    (msg : List (String × Json)) (pfs : List (String × Json))
    (hm : dictGet msg "method" Json.null = Json.str "tools/call")
    (hp : dictGet msg "params" (Json.obj []) = Json.obj pfs)
    (hname : pfs.lookup "name" = none) :
    (handleJsonrpcMessage sn v reg s msg).response
      = some (errorEnvelope (dictGet msg "id" Json.null) (-32601)
          "Tool \x27None\x27 not found")
    ∧ (∀ (msg2 : List (String × Json)) (resp : Json),
        (handleJsonrpcMessage sn v reg s msg2).response = some resp →
        envelopeErrorCode resp ≠ some (-32602)) := by
  constructor
  · have hn : (Json.obj pfs).pyGet "name" Json.null = Except.ok Json.null := by
      simp only [Json.pyGet, dictGet, hname]
    simp only [handleJsonrpcMessage, hm, hp, hn, toolFound_null]
    rfl
  · intro msg2 resp h
    rcases dispatch_response_shape sn v reg s msg2 with ⟨hn, _⟩ | ⟨r, hr⟩ | ⟨c, m, hr, hc⟩
    · rw [h] at hn; exact Option.noConfusion hn
    · rw [h] at hr
      injection hr with hr
      rw [hr, envelopeErrorCode_result]
      exact Option.noConfusion
    · rw [h] at hr
      injection hr with hr
      rw [hr, envelopeErrorCode_error]
      intro hcontra
      injection hcontra with hcontra
      rcases hc with hc | hc <;> rw [hc] at hcontra <;> exact absurd hcontra (by decide)

/-- C10 witness: a concrete `tools/call` with params `{"arguments":
{}}` (no `name`) yields `Tool 'None' not found` with code `-32601`,
and the concrete `prompts/list` error response does not carry
`-32602`. -/
theorem c10_witness :
    (handleJsonrpcMessage "srv" "1.0" witnessRegistry witnessSession
        [("id", Json.num 7), ("method", Json.str "tools/call"),
         ("params", Json.obj [("arguments", Json.obj [])])]).response
      = some (errorEnvelope (Json.num 7) (-32601) "Tool \x27None\x27 not found")
    ∧ (∀ (msg2 : List (String × Json)) (resp : Json),
        (handleJsonrpcMessage "srv" "1.0" witnessRegistry witnessSession msg2).response
          = some resp →
        envelopeErrorCode resp ≠ some (-32602)) :=
  c10_missing_name_no_32602 "srv" "1.0" witnessRegistry witnessSession
    [("id", Json.num 7), ("method", Json.str "tools/call"),
     ("params", Json.obj [("arguments", Json.obj [])])]
    [("arguments", Json.obj [])] rfl rfl rfl

/-- On a JSON-serializable result, the REST formatting is exactly the
`tools/call` formatting wrapped as one text block. -/
theorem normalizeRest_json (j : Json) :
    normalizeRest (PyVal.json j)
      = (normalizeJsonrpc (PyVal.json j)).map (fun t => [textBlock t]) := by
  cases j <;> rfl

/-- A registry whose single tool `t` returns a non-empty `TextContent`
list — the shape `handle_tool_call` returns for MCP, per the comment
in `execute_tool`. -/
def textContentRegistry : Registry :=
  { tools := [{ name := "t", description := "d", inputSchema := Json.obj [] }],
    call := fun _ _ => Except.ok (PyVal.contents [{ type := "text", text := "hi" }]) }

/-- C3 counterexample: on a non-empty `TextContent`-list result the
two endpoints do not normalize alike — `execute_tool` extracts the
text blocks and returns `200`, while the `tools/call` branch hits the
`json.dumps` `TypeError` and returns the `-32603` envelope, so the
forms differ and the result is not JSON-serialized either. -/
theorem c3_counterexample :
    ¬ (normalizeRest (PyVal.contents [{ type := "text", text := "hi" }])
        = (normalizeJsonrpc (PyVal.contents [{ type := "text", text := "hi" }])).map
            (fun t => [textBlock t]))
    ∧ executeTool textContentRegistry "t" true
        (Except.ok (Json.obj [("arguments", Json.obj [])]))
      = { status := 200, body := Json.obj [("content", Json.arr [textBlock "hi"])] }
    ∧ (handleJsonrpcMessage "srv" "1.0" textContentRegistry witnessSession
        [("id", Json.num 4), ("method", Json.str "tools/call"),
         ("params", Json.obj [("name", Json.str "t"),
                              ("arguments", Json.obj [])])]).response
      = some (errorEnvelope (Json.num 4) (-32603)
          "Object of type TextContent is not JSON serializable") :=
  by
  refine ⟨fun h => ?_, rfl, rfl⟩
  exact nomatch h


/-- C3 (amended): for every tool result that is a JSON-serializable
value (not a non-empty `TextContent` list), the REST endpoint and the
`tools/call` branch produce exactly the same content array — a string
embedded unmodified as one text block, any other value
`json.dumps`-serialized with `indent=2`. -/
theorem c3_rest_matches_jsonrpc (reg : Registry) (toolName : String)
    (arguments : Json) (sn v : String) (s : Session) (msg : List (String × Json))
    (j : Json) (text : String)
    (hm : dictGet msg "method" Json.null = Json.str "tools/call")
    (hp : dictGet msg "params" (Json.obj [])
        = Json.obj [("name", Json.str toolName), ("arguments", arguments)])
    (hfound : toolFound reg.tools (Json.str toolName) = true)
    (hcall : reg.call (Json.str toolName) arguments = Except.ok (PyVal.json j))
    (htext : normalizeJsonrpc (PyVal.json j) = Except.ok text) :
    executeTool reg toolName true (Except.ok (Json.obj [("arguments", arguments)]))
      = { status := 200, body := Json.obj [("content", Json.arr [textBlock text])] }
    ∧ (handleJsonrpcMessage sn v reg s msg).response
      = some (resultEnvelope (dictGet msg "id" Json.null)
          (Json.obj [("content", Json.arr [textBlock text])])) := by
  have hrest : normalizeRest (PyVal.json j) = Except.ok [textBlock text] := by
    rw [normalizeRest_json, htext]
    rfl
  have hargs : restArguments true (Except.ok (Json.obj [("arguments", arguments)]))
      = Except.ok arguments := rfl
  have hn : (Json.obj [("name", Json.str toolName), ("arguments", arguments)]).pyGet
      "name" Json.null = Except.ok (Json.str toolName) := rfl
  have ha : (Json.obj [("name", Json.str toolName), ("arguments", arguments)]).pyGet
      "arguments" (Json.obj []) = Except.ok arguments := rfl
  constructor
  · simp only [executeTool, hargs, hfound, hcall, hrest]
    exact if_pos trivial
  · simp only [handleJsonrpcMessage, hm, hp, hn, ha, hfound, hcall, htext]
    rfl

/-- C3 witness: the tool `echo` of the witness registry returns the
string `"ok"`, and both endpoints wrap it as the same single text
block. -/
theorem c3_witness :
    executeTool witnessRegistry "echo" true
        (Except.ok (Json.obj [("arguments", Json.obj [])]))
      = { status := 200, body := Json.obj [("content", Json.arr [textBlock "ok"])] }
    ∧ (handleJsonrpcMessage "srv" "1.0" witnessRegistry witnessSession
        [("id", Json.num 5), ("method", Json.str "tools/call"),
         ("params", Json.obj [("name", Json.str "echo"),
                              ("arguments", Json.obj [])])]).response
      = some (resultEnvelope (Json.num 5)
          (Json.obj [("content", Json.arr [textBlock "ok"])])) :=
  c3_rest_matches_jsonrpc witnessRegistry "echo" (Json.obj []) "srv" "1.0" witnessSession
    [("id", Json.num 5), ("method", Json.str "tools/call"),
     ("params", Json.obj [("name", Json.str "echo"), ("arguments", Json.obj [])])]
    (Json.str "ok") "ok" rfl rfl rfl rfl rfl

/-- C4 counterexample: an unregistered tool name posted with a JSON
content type and a malformed body yields `500` (the
`json.JSONDecodeError` escapes to the endpoint's `except Exception`),
not the `404` the claim promises for every body. -/
theorem c4_counterexample :
    executeTool witnessRegistry "missing_tool" true
        (Except.error "Expecting value: line 1 column 1 (char 0)")
      = { status := 500,
          body := Json.obj
            [("error", Json.str "Expecting value: line 1 column 1 (char 0)")] }
    ∧ (500 : Nat) ≠ 404 :=
  ⟨rfl, by decide⟩

/-- C4 (amended): `execute_tool` parses the body before checking the
registry — an unknown tool yields `404` whenever argument extraction
succeeds; the arguments are the empty dict when the content type is
not JSON (without touching the body) and the dict body's `arguments`
field when it is; but a JSON content type with a malformed body yields
`500` regardless of the tool. -/
theorem c4_rest_status_logic (reg : Registry) (toolName : String)
    (body : Except String Json) :
    (∀ ct args, restArguments ct body = Except.ok args →
       toolFound reg.tools (Json.str toolName) = false →
       executeTool reg toolName ct body
         = { status := 404,
             body := Json.obj
               [("error", Json.str ("Tool \x27" ++ toolName ++ "\x27 not found"))] })
    ∧ restArguments false body = Except.ok (Json.obj [])
    ∧ (∀ e, body = Except.error e →
        executeTool reg toolName true body
          = { status := 500, body := Json.obj [("error", Json.str e)] })
    ∧ (∀ fs, body = Except.ok (Json.obj fs) →
        restArguments true body = Except.ok (dictGet fs "arguments" (Json.obj []))) := by
  refine ⟨fun ct args hargs hfound => ?_, rfl, fun e he => ?_, fun fs hfs => ?_⟩
  · simp only [executeTool, hargs, hfound]
    exact if_neg (by decide)
  · subst he
    rfl
  · subst hfs
    rfl

/-- C4 witness: against the witness registry, `missing_tool` with a
non-JSON content type gets `404`; a malformed JSON body gets `500`;
a dict body's `arguments` field is extracted. -/
theorem c4_witness :
    executeTool witnessRegistry "missing_tool" false (Except.error "ignored")
      = { status := 404,
          body := Json.obj [("error", Json.str "Tool \x27missing_tool\x27 not found")] }
    ∧ executeTool witnessRegistry "missing_tool" true (Except.error "bad body")
      = { status := 500, body := Json.obj [("error", Json.str "bad body")] }
    ∧ restArguments true (Except.ok (Json.obj [("arguments", Json.num 3)]))
      = Except.ok (Json.num 3) :=
  ⟨(c4_rest_status_logic witnessRegistry "missing_tool" (Except.error "ignored")).1
      false (Json.obj []) rfl rfl,
   (c4_rest_status_logic witnessRegistry "missing_tool" (Except.error "bad body")).2.2.1
      "bad body" rfl,
   (c4_rest_status_logic witnessRegistry "missing_tool"
      (Except.ok (Json.obj [("arguments", Json.num 3)]))).2.2.2
      [("arguments", Json.num 3)] rfl⟩

/-- A `resultEnvelope` is a non-empty dict, hence Python-truthy. -/
theorem pyTruthy_result (i r : Json) : (resultEnvelope i r).pyTruthy = true := rfl

/-- An `errorEnvelope` is a non-empty dict, hence Python-truthy. -/
theorem pyTruthy_error (i : Json) (c : Int) (m : String) :
    (errorEnvelope i c m).pyTruthy = true := rfl

/-- C7: a POST to `/messages` with a live session and a body parsing
to a dict always returns `202 Accepted`, the dispatcher runs on that
session, and its response envelope — when one is produced — is
appended to that session's queue (nothing is appended for a
notification). -/
theorem c7_messages_dispatch_202 (sn v : String) (reg : Registry)
    (sessions : List (String × Session)) (sid : String) (session : Session)
    (msg : List (String × Json))
    (hsid : ¬ sid = "") (hlook : sessions.lookup sid = some session) :
    messagesHandler sn v reg sessions (some sid) (Except.ok (Json.obj msg))
      = (replaceSession sessions sid
          (match (handleJsonrpcMessage sn v reg session msg).response with
           | some resp =>
               { (handleJsonrpcMessage sn v reg session msg).session with
                 queue := (handleJsonrpcMessage sn v reg session msg).session.queue
                   ++ [resp] }
           | none => (handleJsonrpcMessage sn v reg session msg).session),
         { status := 202, body := Json.str "Accepted" }) := by
  rcases dispatch_response_shape sn v reg session msg with ⟨hr, _⟩ | ⟨r, hr⟩ | ⟨c, m, hr, _⟩ <;>
    (simp only [messagesHandler, if_neg hsid, hlook, hr]; try rfl)

/-- C7 witness: a `tools/list` request on a live session is answered
`202` and its response envelope lands on that session's queue. -/
theorem c7_witness :
    messagesHandler "srv" "1.0" witnessRegistry [("sid1", witnessSession)] (some "sid1")
        (Except.ok (Json.obj [("id", Json.num 1), ("method", Json.str "tools/list")]))
      = (replaceSession [("sid1", witnessSession)] "sid1"
          (match (handleJsonrpcMessage "srv" "1.0" witnessRegistry witnessSession
              [("id", Json.num 1), ("method", Json.str "tools/list")]).response with
           | some resp =>
               { (handleJsonrpcMessage "srv" "1.0" witnessRegistry witnessSession
                    [("id", Json.num 1), ("method", Json.str "tools/list")]).session with
                 queue := (handleJsonrpcMessage "srv" "1.0" witnessRegistry witnessSession
                    [("id", Json.num 1), ("method", Json.str "tools/list")]).session.queue
                   ++ [resp] }
           | none => (handleJsonrpcMessage "srv" "1.0" witnessRegistry witnessSession
               [("id", Json.num 1), ("method", Json.str "tools/list")]).session),
         { status := 202, body := Json.str "Accepted" }) :=
  c7_messages_dispatch_202 "srv" "1.0" witnessRegistry [("sid1", witnessSession)] "sid1"
    witnessSession [("id", Json.num 1), ("method", Json.str "tools/list")]
    (by decide) rfl

/-- C8: a POST to `/messages` with a live session but a body that
fails to parse returns `400` and leaves the whole session table —
including every queue — untouched. -/
theorem c8_invalid_json_400_no_mutation (sn v : String) (reg : Registry)
    (sessions : List (String × Session)) (sid : String) (session : Session) (e : String)
    (hsid : ¬ sid = "") (hlook : sessions.lookup sid = some session) :
    messagesHandler sn v reg sessions (some sid) (Except.error e)
      = (sessions,
         { status := 400, body := Json.obj [("error", Json.str "Invalid JSON")] }) := by
  simp only [messagesHandler, if_neg hsid, hlook]

/-- C8 witness: a malformed body on the live session `sid1` yields
`400` and the unchanged table. -/
theorem c8_witness :
    messagesHandler "srv" "1.0" witnessRegistry [("sid1", witnessSession)] (some "sid1")
        (Except.error "Expecting value: line 1 column 1 (char 0)")
      = ([("sid1", witnessSession)],
         { status := 400, body := Json.obj [("error", Json.str "Invalid JSON")] }) :=
  c8_invalid_json_400_no_mutation "srv" "1.0" witnessRegistry [("sid1", witnessSession)]
    "sid1" witnessSession "Expecting value: line 1 column 1 (char 0)" (by decide) rfl

/-- C9: when the `sessionId` query parameter is missing, empty or
names no live session, `/messages` answers `404` with the table
unchanged, for every body (well-formed or not) and every registry —
the body is neither parsed nor dispatched. -/
theorem c9_session_lookup_first (sn v : String) (reg : Registry)
    (sessions : List (String × Session)) (sessionId : Option String)
    (body : Except String Json)
    (h : sessionId = none
       ∨ ∃ sid, sessionId = some sid ∧ (sid = "" ∨ sessions.lookup sid = none)) :
    messagesHandler sn v reg sessions sessionId body
      = (sessions, sessionNotFoundResponse) := by
  rcases h with h | ⟨sid, hs, h⟩
  · rw [h]
    rfl
  · subst hs
    by_cases hsid : sid = ""
    · subst hsid
      rfl
    · rcases h with h | h
      · exact absurd h hsid
      · simp only [messagesHandler, if_neg hsid, h]

/-- C9 witness: an unknown session id gets `404` with the table
unchanged even though the body is malformed. -/
theorem c9_witness :
    messagesHandler "srv" "1.0" witnessRegistry [("sid1", witnessSession)] (some "nope")
        (Except.error "Expecting value: line 1 column 1 (char 0)")
      = ([("sid1", witnessSession)], sessionNotFoundResponse) :=
  c9_session_lookup_first "srv" "1.0" witnessRegistry [("sid1", witnessSession)]
    (some "nope") (Except.error "Expecting value: line 1 column 1 (char 0)")
    (Or.inr ⟨"nope", rfl, Or.inr rfl⟩)

end AccessMCP
